import Mathlib

/-!
Shallow embedding of the IntelliSQL pipeline (sql_agent.py, database_setup.py,
app.py) and verification of its specification claims.

Python string operations are modelled over `List Char` (ASCII-faithful), since
the questions, SQL statements and model outputs handled by this program are
plain text; each `py…` helper mirrors the corresponding Python `str` method.
-/

namespace IntelliSQL

/-- Characters stripped by Python `str.strip()` (ASCII whitespace:
space, tab, newline, carriage return, vertical tab, form feed). -/
def pyIsSpace (c : Char) : Bool :=
  c == ' ' || c == '\t' || c == '\n' || c == '\r' || c == '\x0b' || c == '\x0c'

/-- Strip leading and trailing whitespace from a character list. -/
def pyStripList (l : List Char) : List Char :=
  ((l.dropWhile pyIsSpace).reverse.dropWhile pyIsSpace).reverse

/-- Models Python `s.strip()`. -/
def pyStrip (s : String) : String :=
  ⟨pyStripList s.data⟩

/-- Models Python `str.upper()` on a single ASCII character. -/
def pyUpperChar (c : Char) : Char :=
  if 'a' ≤ c ∧ c ≤ 'z' then Char.ofNat (c.toNat - 32) else c

/-- Models Python `s.upper()` (ASCII). -/
def pyUpper (s : String) : String :=
  ⟨s.data.map pyUpperChar⟩

/-- Models Python `str.lower()` on a single ASCII character. -/
def pyLowerChar (c : Char) : Char :=
  if 'A' ≤ c ∧ c ≤ 'Z' then Char.ofNat (c.toNat + 32) else c

/-- Models Python `s.lower()` (ASCII). -/
def pyLower (s : String) : String :=
  ⟨s.data.map pyLowerChar⟩

/-- Boolean test that the first list is a leading segment of the second. -/
def leadsList : List Char → List Char → Bool
  | [], _ => true
  | _ :: _, [] => false
  | p :: ps, c :: cs => p == c && leadsList ps cs

/-- Models Python `s.startswith(p)`. -/
def pyStartsWith (s p : String) : Bool :=
  leadsList p.data s.data

/-- Boolean sublist (contiguous) test: does `needle` occur inside the list? -/
def containsList (needle : List Char) : List Char → Bool
  | [] => leadsList needle []
  | c :: cs => leadsList needle (c :: cs) || containsList needle cs

/-- Models Python `sub in s` (substring containment). -/
def pyContains (s sub : String) : Bool :=
  containsList sub.data s.data

/-- Split a character list on the newline character, Python `s.split("\n")`. -/
def splitOnNewline : List Char → List (List Char)
  | [] => [[]]
  | c :: cs =>
    if c == '\n' then [] :: splitOnNewline cs
    else
      match splitOnNewline cs with
      | [] => [[c]]
      | l :: ls => (c :: l) :: ls

/-- Models Python `s.split("\n")`. -/
def pySplitLines (s : String) : List String :=
  (splitOnNewline s.data).map String.mk

/-- Join character lists with a separator. -/
def joinWithSep (sep : List Char) : List (List Char) → List Char
  | [] => []
  | [l] => l
  | l :: ls => l ++ sep ++ joinWithSep sep ls

/-- Models Python `sep.join(xs)`. -/
def pyJoin (sep : String) (xs : List String) : String :=
  ⟨joinWithSep sep.data (xs.map String.data)⟩

example : pyStrip "  x  " = "x" := by decide

example : pyStartsWith (pyUpper (pyStrip "  drop table x")) "SELECT" = false := by decide

example : pyStartsWith (pyUpper (pyStrip " select 1")) "SELECT" = true := by decide

example : pyContains "Error 503 here" "503" = true := by decide

example : pySplitLines "a\nb" = ["a", "b"] := by decide

example : pyJoin "\n" ["a", "b"] = "a\nb" := by decide

example : pyLower "TimeOut" = "timeout" := by decide

/-- Error message raised by `configure_gemini` when the API key is missing,
empty, or still the placeholder from the sample `.env` file. -/
def configureGeminiErrorMessage : String :=
  "Please set a valid GOOGLE_API_KEY in your .env file.\nGet one at: https://makersuite.google.com/app/apikey"

/-- Embeds `configure_gemini` (sql_agent.py). `apiKey` is the value of
`os.getenv("GOOGLE_API_KEY")` (`none` when the variable is unset). Python's
`if not api_key or api_key == "your_google_api_key_here"` treats `None` and
the empty string as falsy; the raised `ValueError` is the `.error` branch. -/
def configureGemini (apiKey : Option String) : Except String Unit :=
  match apiKey with
  | none => .error configureGeminiErrorMessage
  | some k =>
    if k == "" || k == "your_google_api_key_here" then
      .error configureGeminiErrorMessage
    else
      .ok ()

/-- Embeds the transient-error classification inside `call_gemini_with_retry`:
`"503" in error_msg or "timeout" in error_msg.lower() or "connect" in
error_msg.lower()`. -/
def isTransientError (msg : String) : Bool :=
  pyContains msg "503" || pyContains (pyLower msg) "timeout" || pyContains (pyLower msg) "connect"

/-- Embeds the `for attempt in range(max_retries)` loop of
`call_gemini_with_retry`. `outcome n` is the result of the `n`-th
`model.generate_content(prompt)` attempt (`.error e` stands for a raised
exception whose `str` is `e`). The second component collects the arguments of
the `time.sleep` calls, in order. `fuel` counts the loop iterations still
available and starts at `maxRetries`; the zero-fuel case is unreachable from
`callGeminiWithRetry` because the final iteration either returns or raises. -/
def retryLoop {R : Type} (outcome : Nat → Except String R) (maxRetries : Nat) :
    Nat → Nat → Except String R × List Nat
  | _, 0 => (.error "", [])
  | attempt, fuel + 1 =>
    match outcome attempt with
    | .ok r => (.ok r, [])
    | .error e =>
      if attempt < maxRetries - 1 ∧ isTransientError e then
        let rest := retryLoop outcome maxRetries (attempt + 1) fuel
        (rest.1, 2 ^ (attempt + 1) :: rest.2)
      else
        (.error e, [])

/-- Embeds `call_gemini_with_retry(model, prompt, max_retries)`; the model and
prompt are folded into `outcome`. Returns the call's result together with the
list of sleep durations (`wait_time = 2 ** (attempt + 1)`). -/
def callGeminiWithRetry {R : Type} (outcome : Nat → Except String R) (maxRetries : Nat) :
    Except String R × List Nat :=
  retryLoop outcome maxRetries 0 maxRetries

/-- Embeds `SQL_GENERATION_PROMPT.format(schema=schema, question=question)`. -/
def sqlGenerationPrompt (schema question : String) : String :=
  "\nYou are an expert SQL query generator. You are given a SQLite database schema\nand a natural language question. Your job is to generate a valid SQLite SQL query\nthat answers the question.\n\nDATABASE SCHEMA:\n"
    ++ schema
    ++ "\n\nRULES:\n1. Generate ONLY a valid SQLite SELECT query — no INSERT, UPDATE, DELETE, DROP, or ALTER.\n2. Use only the tables and columns listed in the schema above.\n3. Return ONLY the raw SQL query — no explanations, no markdown, no code fences.\n4. Use proper JOINs when data spans multiple tables.\n5. Use aliases for readability when joining tables.\n6. If the question is ambiguous, make a reasonable assumption and proceed.\n7. Always end the query with a semicolon.\n\nQUESTION: "
    ++ question
    ++ "\n\nSQL QUERY:\n"

/-- Embeds `ANSWER_GENERATION_PROMPT.format(question=..., sql_query=...,
results=..., columns=...)`; `columnsText` is Python's `str(columns)`. -/
def answerGenerationPrompt (question sqlQuery results columnsText : String) : String :=
  "\nYou are a helpful data assistant. Given a user's question, the SQL query that was\nexecuted, and the results from the database, provide a clear, concise, and\nhuman-friendly answer.\n\nQUESTION: "
    ++ question
    ++ "\n\nSQL QUERY EXECUTED:\n"
    ++ sqlQuery
    ++ "\n\nQUERY RESULTS:\n"
    ++ results
    ++ "\n\nCOLUMN NAMES: "
    ++ columnsText
    ++ "\n\nInstructions:\n- Provide a natural language answer summarizing the results.\n- If the results are tabular, present them in a well-formatted way.\n- If no results were returned, say so politely and suggest possible reasons.\n- Keep the answer concise but informative.\n\nANSWER:\n"

/-- Embeds the post-processing block of `generate_sql_query`:
`sql_query = response.text.strip()`, then if it starts with a code fence,
drop every line whose stripped form starts with a fence and rejoin,
stripping the result. -/
def stripCodeFences (raw : String) : String :=
  let sqlQuery := pyStrip raw
  if pyStartsWith sqlQuery "```" then
    pyStrip (pyJoin "\n"
      ((pySplitLines sqlQuery).filter (fun line => !(pyStartsWith (pyStrip line) "```"))))
  else
    sqlQuery

/-- Embeds the result-formatting block of `generate_natural_answer`:
renders at most the first 50 rows (via `render`, Python's `str(row)`), appends
an omission note when more rows exist, and substitutes a no-results marker for
an empty row list. -/
def formatResults {ρ : Type} (render : ρ → String) (rws : List ρ) : String :=
  if rws.isEmpty then
    "No results found."
  else
    let resultsStr := pyJoin "\n" ((rws.take 50).map render)
    if rws.length > 50 then
      resultsStr ++ "\n... and " ++ toString (rws.length - 50) ++ " more rows"
    else
      resultsStr

example : stripCodeFences "```sql\nSELECT 1;\n```" = "SELECT 1;" := by decide

example : stripCodeFences "  SELECT 2;  " = "SELECT 2;" := by decide

example : formatResults (fun _ : Unit => "r") [] = "No results found." := by decide

example : formatResults (fun _ : Unit => "r") [(), ()] = "r\nr" := by decide

example : toString (25 : Nat) = "25" := by decide

example :
    callGeminiWithRetry (fun n => if n = 2 then .ok 7 else .error "503 oops") 3 =
      (.ok 7, [2, 4]) := rfl

/-- One row of sqlite's `PRAGMA table_info`, as consumed by `get_schema_info`
(database_setup.py): column name, declared type, NOT NULL flag, PRIMARY KEY
flag. -/
structure ColumnInfo where
  name : String
  colType : String
  notNull : Bool
  primaryKey : Bool

/-- One entry of `sqlite_master` for a table, with its `PRAGMA table_info`. -/
structure TableSchema where
  name : String
  cols : List ColumnInfo

/-- State of the sqlite database behind `DB_PATH` (company.db): the catalog of
tables plus the contents of the five seeded tables, with each row a tuple
shaped like the Python insert tuples (REAL columns as rationals). -/
structure Database where
  tables : List TableSchema
  departments : List (Nat × String × String)
  employees : List (Nat × String × String × String × String × Nat × String)
  projects : List (Nat × String × String × Option String × ℚ × String)
  salaries : List (Nat × Nat × ℚ × String)
  projectAssignments : List (Nat × Nat × Nat × String × String)

/-- Catalog produced by the `CREATE TABLE` script of `create_database`,
with NOT NULL / PRIMARY KEY flags as sqlite's `PRAGMA table_info` reports
them (an `INTEGER PRIMARY KEY` column has the pk flag and no notnull flag). -/
def createdTables : List TableSchema :=
  [ { name := "departments"
    , cols :=
      [ { name := "department_id", colType := "INTEGER", notNull := false, primaryKey := true }
      , { name := "department_name", colType := "TEXT", notNull := true, primaryKey := false }
      , { name := "location", colType := "TEXT", notNull := true, primaryKey := false } ] }
  , { name := "employees"
    , cols :=
      [ { name := "employee_id", colType := "INTEGER", notNull := false, primaryKey := true }
      , { name := "first_name", colType := "TEXT", notNull := true, primaryKey := false }
      , { name := "last_name", colType := "TEXT", notNull := true, primaryKey := false }
      , { name := "email", colType := "TEXT", notNull := true, primaryKey := false }
      , { name := "hire_date", colType := "DATE", notNull := true, primaryKey := false }
      , { name := "department_id", colType := "INTEGER", notNull := false, primaryKey := false }
      , { name := "job_title", colType := "TEXT", notNull := true, primaryKey := false } ] }
  , { name := "projects"
    , cols :=
      [ { name := "project_id", colType := "INTEGER", notNull := false, primaryKey := true }
      , { name := "project_name", colType := "TEXT", notNull := true, primaryKey := false }
      , { name := "start_date", colType := "DATE", notNull := true, primaryKey := false }
      , { name := "end_date", colType := "DATE", notNull := false, primaryKey := false }
      , { name := "budget", colType := "REAL", notNull := true, primaryKey := false }
      , { name := "status", colType := "TEXT", notNull := true, primaryKey := false } ] }
  , { name := "salaries"
    , cols :=
      [ { name := "salary_id", colType := "INTEGER", notNull := false, primaryKey := true }
      , { name := "employee_id", colType := "INTEGER", notNull := true, primaryKey := false }
      , { name := "salary_amount", colType := "REAL", notNull := true, primaryKey := false }
      , { name := "effective_date", colType := "DATE", notNull := true, primaryKey := false } ] }
  , { name := "project_assignments"
    , cols :=
      [ { name := "assignment_id", colType := "INTEGER", notNull := false, primaryKey := true }
      , { name := "employee_id", colType := "INTEGER", notNull := true, primaryKey := false }
      , { name := "project_id", colType := "INTEGER", notNull := true, primaryKey := false }
      , { name := "role", colType := "TEXT", notNull := true, primaryKey := false }
      , { name := "assigned_date", colType := "DATE", notNull := true, primaryKey := false } ] } ]

/-- Seed rows of the `departments` table (create_database). -/
def seedDepartments : List (Nat × String × String) :=
  [ (1, "Engineering", "Building A, Floor 3")
  , (2, "Marketing", "Building B, Floor 1")
  , (3, "Human Resources", "Building A, Floor 1")
  , (4, "Finance", "Building C, Floor 2")
  , (5, "Data Science", "Building A, Floor 4") ]

/-- Seed rows of the `employees` table (create_database). -/
def seedEmployees : List (Nat × String × String × String × String × Nat × String) :=
  [ (1, "Aarav", "Sharma", "aarav.sharma@company.com", "2021-03-15", 1, "Software Engineer")
  , (2, "Priya", "Patel", "priya.patel@company.com", "2020-07-20", 1, "Senior Software Engineer")
  , (3, "Rahul", "Gupta", "rahul.gupta@company.com", "2022-01-10", 2, "Marketing Analyst")
  , (4, "Sneha", "Reddy", "sneha.reddy@company.com", "2019-11-05", 3, "HR Manager")
  , (5, "Vikram", "Singh", "vikram.singh@company.com", "2023-02-28", 1, "Junior Developer")
  , (6, "Ananya", "Iyer", "ananya.iyer@company.com", "2020-09-14", 4, "Financial Analyst")
  , (7, "Rohan", "Mehta", "rohan.mehta@company.com", "2021-06-01", 5, "Data Scientist")
  , (8, "Kavya", "Nair", "kavya.nair@company.com", "2022-08-22", 5, "ML Engineer")
  , (9, "Arjun", "Kumar", "arjun.kumar@company.com", "2018-04-12", 1, "Tech Lead")
  , (10, "Divya", "Joshi", "divya.joshi@company.com", "2023-05-17", 2, "Content Strategist")
  , (11, "Manish", "Verma", "manish.verma@company.com", "2021-11-30", 4, "Accountant")
  , (12, "Pooja", "Agarwal", "pooja.agarwal@company.com", "2020-02-14", 3, "Recruiter")
  , (13, "Siddharth", "Rao", "siddharth.rao@company.com", "2019-08-25", 1, "DevOps Engineer")
  , (14, "Neha", "Desai", "neha.desai@company.com", "2022-12-01", 5, "Data Analyst")
  , (15, "Amit", "Choudhary", "amit.choudhary@company.com", "2023-09-10", 2, "Marketing Manager") ]

/-- Seed rows of the `projects` table (create_database). -/
def seedProjects : List (Nat × String × String × Option String × ℚ × String) :=
  [ (1, "Cloud Migration", "2024-01-15", some "2024-12-31", 500000, "Active")
  , (2, "Customer Analytics", "2023-06-01", some "2024-06-30", 250000, "Active")
  , (3, "Mobile App Redesign", "2023-09-01", some "2024-03-31", 180000, "Completed")
  , (4, "AI Chatbot", "2024-03-01", none, 350000, "Active")
  , (5, "ERP System Upgrade", "2022-01-01", some "2023-12-31", 750000, "Completed") ]

/-- Seed rows of the `salaries` table (create_database). -/
def seedSalaries : List (Nat × Nat × ℚ × String) :=
  [ (1, 1, 85000, "2024-01-01")
  , (2, 2, 120000, "2024-01-01")
  , (3, 3, 65000, "2024-01-01")
  , (4, 4, 95000, "2024-01-01")
  , (5, 5, 55000, "2024-01-01")
  , (6, 6, 78000, "2024-01-01")
  , (7, 7, 110000, "2024-01-01")
  , (8, 8, 105000, "2024-01-01")
  , (9, 9, 140000, "2024-01-01")
  , (10, 10, 60000, "2024-01-01")
  , (11, 11, 72000, "2024-01-01")
  , (12, 12, 68000, "2024-01-01")
  , (13, 13, 115000, "2024-01-01")
  , (14, 14, 75000, "2024-01-01")
  , (15, 15, 90000, "2024-01-01") ]

/-- Seed rows of the `project_assignments` table (create_database). -/
def seedAssignments : List (Nat × Nat × Nat × String × String) :=
  [ (1, 1, 1, "Backend Developer", "2024-01-20")
  , (2, 2, 1, "Lead Developer", "2024-01-20")
  , (3, 9, 1, "Project Manager", "2024-01-15")
  , (4, 13, 1, "DevOps Lead", "2024-02-01")
  , (5, 7, 2, "Lead Data Scientist", "2023-06-01")
  , (6, 8, 2, "ML Engineer", "2023-06-15")
  , (7, 14, 2, "Data Analyst", "2023-07-01")
  , (8, 5, 3, "Frontend Developer", "2023-09-01")
  , (9, 1, 4, "AI Developer", "2024-03-01")
  , (10, 8, 4, "ML Engineer", "2024-03-15")
  , (11, 7, 4, "Data Scientist", "2024-04-01") ]

/-- Embeds `create_database` (database_setup.py): drops every table and
recreates the schema and seed rows, so the resulting database state is
independent of whatever was at `DB_PATH` before the call. -/
def createDatabase (_previous : Option Database) : Database :=
  { tables := createdTables
  , departments := seedDepartments
  , employees := seedEmployees
  , projects := seedProjects
  , salaries := seedSalaries
  , projectAssignments := seedAssignments }

/-- The database state produced by `create_database`. -/
def seedDatabase : Database :=
  createDatabase none

/-- A freshly created, empty sqlite database (no tables). -/
def emptyDatabase : Database :=
  { tables := []
  , departments := []
  , employees := []
  , projects := []
  , salaries := []
  , projectAssignments := [] }

/-- Models `sqlite3.connect(DB_PATH)`. A `fileState` of `none` means no file
exists at `DB_PATH`; sqlite then creates a fresh empty database rather than
failing, so connecting always succeeds. -/
def sqliteConnect (fileState : Option Database) : Database :=
  fileState.getD emptyDatabase

/-- Embeds `initialize_database` (app.py): creates the database via
`create_database` only when no file exists at `DB_PATH`; otherwise the
existing file is left untouched. -/
def initializeDatabase (fileState : Option Database) : Option Database :=
  match fileState with
  | none => some (createDatabase none)
  | some db => some db

/-- Renders one `PRAGMA table_info` row the way `get_schema_info` does:
`    - {name} {col_type}{constraint_str}` with the constraints list built as
PRIMARY KEY first, then NOT NULL. -/
def renderColumnInfo (c : ColumnInfo) : String :=
  let constraints : List String :=
    (if c.primaryKey then ["PRIMARY KEY"] else []) ++ (if c.notNull then ["NOT NULL"] else [])
  let constraintStr :=
    if constraints.isEmpty then "" else " (" ++ pyJoin ", " constraints ++ ")"
  "    - " ++ c.name ++ " " ++ c.colType ++ constraintStr

/-- Renders one table block of `get_schema_info`. -/
def renderTableSchema (t : TableSchema) : String :=
  "Table: " ++ t.name ++ "\n" ++ pyJoin "\n" (t.cols.map renderColumnInfo)

/-- Insert a table into a name-sorted list, keeping it sorted. -/
def insertByName (t : TableSchema) : List TableSchema → List TableSchema
  | [] => [t]
  | u :: us => if t.name ≤ u.name then t :: u :: us else u :: insertByName t us

/-- Sorts tables by name, modelling `ORDER BY name` in the `sqlite_master`
query of `get_schema_info`. -/
def sortTablesByName : List TableSchema → List TableSchema
  | [] => []
  | t :: ts => insertByName t (sortTablesByName ts)

/-- The schema text `get_schema_info` builds from a connected database. -/
def renderFullSchema (db : Database) : String :=
  pyJoin "\n\n" ((sortTablesByName db.tables).map renderTableSchema)

/-- Embeds `get_schema_info` (database_setup.py). The `Except` channel is the
function's raised-exception channel; since `sqlite3.connect` creates a fresh
empty database when no file exists at `DB_PATH`, the function always returns
normally, with the rendered schema of whatever database it connected to. -/
def getSchemaInfo (fileState : Option Database) : Except String String :=
  Except.ok (renderFullSchema (sqliteConnect fileState))

example : getSchemaInfo none = .ok "" := rfl

/-- Boolean view of an `Except` value: `true` exactly when the call returned
normally instead of raising. -/
def isOkResult {ε α : Type} : Except ε α → Bool
  | .ok _ => true
  | .error _ => false

/-- Exceptions raised by `execute_sql_query`: the `ValueError` of the safety
check and the `RuntimeError` wrapping a `sqlite3.Error`. -/
inductive ExecError where
  | valueError (msg : String)
  | runtimeError (msg : String)

/-- Python `str(e)` of either exception kind: the carried message. -/
def ExecError.message : ExecError → String
  | .valueError m => m
  | .runtimeError m => m

/-- Message of the `ValueError` raised by the safety check of
`execute_sql_query` (the two adjacent Python string literals concatenate). -/
def selectOnlyMessage : String :=
  "Only SELECT queries are allowed. The generated query was not a SELECT statement."

/-- Observable outcome of one `execute_sql_query` call: its return value or
raised exception, whether `sqlite3.connect` was reached, and the state of the
file at `DB_PATH` afterwards. -/
structure ExecOutcome (ρ : Type) where
  result : Except ExecError (List String × List ρ)
  connectionOpened : Bool
  fileState : Option Database

/-- Embeds `execute_sql_query` (sql_agent.py). The sqlite engine is a black
box `engine`: given the connected database and the statement it yields either
column names and rows or a `sqlite3.Error` message, together with the database
state it leaves behind. The safety check runs before any connection is
opened; on its failure the file state is untouched. -/
def executeSqlQuery {ρ : Type}
    (engine : Database → String → Except String (List String × List ρ) × Database)
    (fileState : Option Database) (sqlQuery : String) : ExecOutcome ρ :=
  let normalized := pyUpper (pyStrip sqlQuery)
  if !(pyStartsWith normalized "SELECT") then
    { result := .error (.valueError selectOnlyMessage)
    , connectionOpened := false
    , fileState := fileState }
  else
    let db := sqliteConnect fileState
    match engine db sqlQuery with
    | (.ok colsRows, db') =>
      { result := .ok colsRows, connectionOpened := true, fileState := some db' }
    | (.error e, db') =>
      { result := .error (.runtimeError ("SQL execution error: " ++ e))
      , connectionOpened := true
      , fileState := some db' }

/-- The record `ask_question` returns: a Lean structure standing for the
Python dict, which is created with exactly these six keys and never gains or
loses one. -/
structure AnswerRecord (ρ : Type) where
  question : String
  sql_query : Option String
  columns : Option (List String)
  rows : Option (List ρ)
  answer : Option String
  error : Option String

/-- External collaborators of the pipeline, all black boxes: the language
model's responses for each of the two prompts (`.error` is a raised
exception, already folded through `call_gemini_with_retry`), the sqlite
engine, Python's `str` rendering of a row tuple and of the column-name list,
and the state of the file at `DB_PATH`. -/
structure PipelineEnv (ρ : Type) where
  llmSql : String → Except String String
  llmAnswer : String → Except String String
  engine : Database → String → Except String (List String × List ρ) × Database
  renderRow : ρ → String
  renderColumns : List String → String
  fileState : Option Database

/-- Embeds `generate_sql_query` (sql_agent.py): fetches the schema, builds
the SQL-generation prompt, calls the model, and post-processes the raw text
with `stripCodeFences`. -/
def generateSqlQuery {ρ : Type} (env : PipelineEnv ρ) (question : String) :
    Except String String :=
  match getSchemaInfo env.fileState with
  | .error e => .error e
  | .ok schema =>
    match env.llmSql (sqlGenerationPrompt schema question) with
    | .error e => .error e
    | .ok raw => .ok (stripCodeFences raw)

/-- Embeds `generate_natural_answer` (sql_agent.py): renders the truncated
results, builds the answer prompt, calls the model, and strips the response. -/
def generateNaturalAnswer {ρ : Type} (env : PipelineEnv ρ)
    (question sqlQuery : String) (columns : List String) (rws : List ρ) :
    Except String String :=
  let resultsStr := formatResults env.renderRow rws
  match env.llmAnswer (answerGenerationPrompt question sqlQuery resultsStr
      (env.renderColumns columns)) with
  | .error e => .error e
  | .ok t => .ok (pyStrip t)

/-- Embeds `ask_question` (sql_agent.py): the dict starts with all five
produced fields `None`, each stage fills its fields on success, and the
`except Exception` handler stores a failure's message in `error`. -/
def askQuestion {ρ : Type} (env : PipelineEnv ρ) (question : String) :
    AnswerRecord ρ :=
  let base : AnswerRecord ρ :=
    { question := question, sql_query := none, columns := none, rows := none
    , answer := none, error := none }
  match generateSqlQuery env question with
  | .error e => { base with error := some e }
  | .ok sqlQuery =>
    match (executeSqlQuery env.engine env.fileState sqlQuery).result with
    | .error err => { base with sql_query := some sqlQuery, error := some err.message }
    | .ok (columns, rws) =>
      match generateNaturalAnswer env question sqlQuery columns rws with
      | .error e =>
        { base with
          sql_query := some sqlQuery, columns := some columns,
          rows := some rws, error := some e }
      | .ok ans =>
        { base with
          sql_query := some sqlQuery, columns := some columns,
          rows := some rws, answer := some ans }

/-- Embeds `get_gemini_model` followed by `model.generate_content`:
`configure_gemini` runs at first use of the client, so a configuration
failure surfaces as the raised error of the language-model stage. -/
def geminiStage (apiKey : Option String) (callModel : String → Except String String) :
    String → Except String String :=
  fun prompt =>
    match configureGemini apiKey with
    | .error e => .error e
    | .ok _ => callModel prompt

/-- Concrete pipeline environment whose translation stage fails. -/
def envFailTranslate : PipelineEnv Unit :=
  { llmSql := fun _ => .error "model unavailable"
  , llmAnswer := fun _ => .ok "fine"
  , engine := fun db _ => (.ok ([], []), db)
  , renderRow := fun _ => "()"
  , renderColumns := fun _ => "[]"
  , fileState := none }

/-- Concrete pipeline environment whose generated statement is rejected by
the execution stage's safety check. -/
def envFailExecute : PipelineEnv Unit :=
  { llmSql := fun _ => .ok "DROP TABLE employees;"
  , llmAnswer := fun _ => .ok "fine"
  , engine := fun db _ => (.ok ([], []), db)
  , renderRow := fun _ => "()"
  , renderColumns := fun _ => "[]"
  , fileState := none }

/-- Concrete pipeline environment whose synthesis stage fails after a
successful execution. -/
def envFailSynthesize : PipelineEnv Unit :=
  { llmSql := fun _ => .ok "SELECT 1;"
  , llmAnswer := fun _ => .error "synthesis failed"
  , engine := fun db _ => (.ok (["c"], [()]), db)
  , renderRow := fun _ => "()"
  , renderColumns := fun _ => "[]"
  , fileState := none }

/-- Concrete pipeline environment whose API key is still the placeholder
value, wired through `geminiStage` the way `generate_sql_query` reaches
`configure_gemini`. -/
def badKeyEnv : PipelineEnv Unit :=
  { llmSql := geminiStage (some "your_google_api_key_here") (fun _ => .ok "SELECT 1;")
  , llmAnswer := fun _ => .ok "fine"
  , engine := fun db _ => (.ok ([], []), db)
  , renderRow := fun _ => "()"
  , renderColumns := fun _ => "[]"
  , fileState := none }

theorem string_append_assoc (a b c : String) : a ++ b ++ c = a ++ (b ++ c) := by
  apply String.ext
  simp

/-- C1: a statement whose trimmed, uppercased form does not begin with
"SELECT" is rejected by `execute_sql_query` with the policy-violation
`ValueError`; no connection is opened and the database file is unchanged. -/
theorem C1_non_select_rejected_without_db_access :
    ∀ {ρ : Type}
      (engine : Database → String → Except String (List String × List ρ) × Database)
      (fileState : Option Database) (s : String),
      pyStartsWith (pyUpper (pyStrip s)) "SELECT" = false →
      executeSqlQuery engine fileState s =
        { result := .error (.valueError selectOnlyMessage)
        , connectionOpened := false
        , fileState := fileState } := by
  intro ρ engine fileState s h
  simp [executeSqlQuery, h]

theorem C1_non_select_rejected_without_db_access_witness :
    pyStartsWith (pyUpper (pyStrip "DROP TABLE employees;")) "SELECT" = false ∧
    executeSqlQuery (fun (db : Database) (_ : String) =>
        ((Except.ok ([], []) : Except String (List String × List Unit)), db))
      none "DROP TABLE employees;" =
      { result := .error (.valueError selectOnlyMessage)
      , connectionOpened := false
      , fileState := none } :=
  ⟨by decide,
   C1_non_select_rejected_without_db_access _ none "DROP TABLE employees;" (by decide)⟩

/-- C2: the record returned by `ask_question` never has both `answer` and
`error` populated. -/
theorem C2_answer_error_exclusive :
    ∀ {ρ : Type} (env : PipelineEnv ρ) (q : String),
      (askQuestion env q).answer = none ∨ (askQuestion env q).error = none := by
  intro ρ env q
  rcases hg : generateSqlQuery env q with e | sql
  · simp [askQuestion, hg]
  · rcases hx : (executeSqlQuery env.engine env.fileState sql).result with err | ⟨columns, rws⟩
    · simp [askQuestion, hg, hx]
    · rcases ha : generateNaturalAnswer env q sql columns rws with e | ans
      · simp [askQuestion, hg, hx, ha]
      · simp [askQuestion, hg, hx, ha]

/-- C3: `call_gemini_with_retry` retries only failures matching a transient
pattern and only before the final attempt, with the backoff schedule
`2 ^ (attempt + 1)` (2s, 4s, 8s); a non-transient failure propagates
immediately with no sleep, the final attempt's failure propagates after the
two earlier sleeps, and in the fail-transient/fail-transient/succeed scenario
the successful response is returned having slept 2s then 4s. With 3 attempts
at most two sleeps can occur, so the sleep list is always the length-bounded
head of the 2s, 4s, 8s schedule. -/
theorem C3_retry_policy :
    ∀ {R : Type} (outcome : Nat → Except String R),
      (∀ e, outcome 0 = .error e → isTransientError e = false →
        callGeminiWithRetry outcome 3 = (.error e, [])) ∧
      (∀ e0 e1 (r : R), outcome 0 = .error e0 → isTransientError e0 = true →
        outcome 1 = .error e1 → isTransientError e1 = true →
        outcome 2 = .ok r →
        callGeminiWithRetry outcome 3 = (.ok r, [2, 4])) ∧
      (∀ e0 e1 e2, outcome 0 = .error e0 → isTransientError e0 = true →
        outcome 1 = .error e1 → isTransientError e1 = true →
        outcome 2 = .error e2 →
        callGeminiWithRetry outcome 3 = (.error e2, [2, 4])) ∧
      ((callGeminiWithRetry outcome 3).2.length ≤ 2 ∧
        (callGeminiWithRetry outcome 3).2 =
          (List.range (callGeminiWithRetry outcome 3).2.length).map (fun i => 2 ^ (i + 1))) := by
  intro R outcome
  refine ⟨?_, ?_, ?_, ?_⟩
  · intro e h0 ht
    simp [callGeminiWithRetry, retryLoop, h0, ht]
  · intro e0 e1 r h0 t0 h1 t1 h2
    simp [callGeminiWithRetry, retryLoop, h0, t0, h1, t1, h2]
  · intro e0 e1 e2 h0 t0 h1 t1 h2
    simp [callGeminiWithRetry, retryLoop, h0, t0, h1, t1, h2]
  · rcases h0 : outcome 0 with e0 | r0
    · by_cases t0 : isTransientError e0
      · rcases h1 : outcome 1 with e1 | r1
        · by_cases t1 : isTransientError e1
          · rcases h2 : outcome 2 with e2 | r2 <;>
              simp [callGeminiWithRetry, retryLoop, h0, t0, h1, t1, h2, List.range_succ]
          · simp [callGeminiWithRetry, retryLoop, h0, t0, h1, t1, List.range_succ]
        · simp [callGeminiWithRetry, retryLoop, h0, t0, h1, List.range_succ]
      · simp [callGeminiWithRetry, retryLoop, h0, t0]
    · simp [callGeminiWithRetry, retryLoop, h0]

/-- Attempt outcomes that fail twice with transient-pattern errors and then
succeed. -/
def outcomesTransientThenOk : Nat → Except String Nat :=
  fun n =>
    match n with
    | 0 => .error "503 Service Unavailable"
    | 1 => .error "Connection timeout"
    | _ => .ok 42

/-- Attempt outcomes that fail on all three attempts with transient-pattern
errors. -/
def outcomesAllTransient : Nat → Except String Nat :=
  fun n =>
    match n with
    | 0 => .error "503"
    | 1 => .error "read timeout"
    | _ => .error "failed to connect"

theorem C3_retry_policy_witness :
    callGeminiWithRetry (fun _ => (.error "bad request" : Except String Nat)) 3 =
      (.error "bad request", []) ∧
    callGeminiWithRetry outcomesTransientThenOk 3 = (.ok 42, [2, 4]) ∧
    callGeminiWithRetry outcomesAllTransient 3 = (.error "failed to connect", [2, 4]) :=
  ⟨(C3_retry_policy (fun _ => (.error "bad request" : Except String Nat))).1
      "bad request" rfl (by decide),
   (C3_retry_policy outcomesTransientThenOk).2.1
      "503 Service Unavailable" "Connection timeout" 42 rfl (by decide) rfl (by decide) rfl,
   (C3_retry_policy outcomesAllTransient).2.2.1
      "503" "read timeout" "failed to connect" rfl (by decide) rfl (by decide) rfl⟩

/-- C4: a failing pipeline stage short-circuits `ask_question`: the failure's
message lands in `error`, fields of later stages stay `None`, and fields
already produced by completed stages keep their values; the orchestrator
returns a record rather than letting the failure escape (in the embedding,
`askQuestion` is a total function into `AnswerRecord`). -/
theorem C4_stage_failure_shortcircuits :
    ∀ {ρ : Type} (env : PipelineEnv ρ) (q : String),
      (∀ e, generateSqlQuery env q = .error e →
        askQuestion env q =
          { question := q, sql_query := none, columns := none, rows := none
          , answer := none, error := some e }) ∧
      (∀ s err, generateSqlQuery env q = .ok s →
        (executeSqlQuery env.engine env.fileState s).result = .error err →
        askQuestion env q =
          { question := q, sql_query := some s, columns := none, rows := none
          , answer := none, error := some err.message }) ∧
      (∀ s columns rws e, generateSqlQuery env q = .ok s →
        (executeSqlQuery env.engine env.fileState s).result = .ok (columns, rws) →
        generateNaturalAnswer env q s columns rws = .error e →
        askQuestion env q =
          { question := q, sql_query := some s, columns := some columns
          , rows := some rws, answer := none, error := some e }) := by
  intro ρ env q
  refine ⟨?_, ?_, ?_⟩
  · intro e hg
    simp [askQuestion, hg]
  · intro s err hg hx
    simp [askQuestion, hg, hx]
  · intro s columns rws e hg hx ha
    simp [askQuestion, hg, hx, ha]

theorem C4_stage_failure_shortcircuits_witness :
    askQuestion envFailTranslate "q" =
      { question := "q", sql_query := none, columns := none, rows := none
      , answer := none, error := some "model unavailable" } ∧
    askQuestion envFailExecute "q" =
      { question := "q", sql_query := some "DROP TABLE employees;", columns := none
      , rows := none, answer := none, error := some selectOnlyMessage } ∧
    askQuestion envFailSynthesize "q" =
      { question := "q", sql_query := some "SELECT 1;", columns := some ["c"]
      , rows := some [()], answer := none, error := some "synthesis failed" } :=
  ⟨(C4_stage_failure_shortcircuits envFailTranslate "q").1 "model unavailable" rfl,
   (C4_stage_failure_shortcircuits envFailExecute "q").2.1
      "DROP TABLE employees;" (.valueError selectOnlyMessage) rfl rfl,
   (C4_stage_failure_shortcircuits envFailSynthesize "q").2.2
      "SELECT 1;" ["c"] [()] "synthesis failed" rfl rfl rfl⟩

/-- C5: `initialize_database` creates the store only when no file exists, a
second call in succession changes nothing (same schema, same seed contents),
and the created database holds 15 employees, 5 departments, 5 projects, 15
salaries and 11 project assignments. -/
theorem C5_initialize_database_idempotent :
    (∀ fileState : Option Database,
      initializeDatabase (initializeDatabase fileState) = initializeDatabase fileState) ∧
    (∀ db : Database, initializeDatabase (some db) = some db) ∧
    initializeDatabase none = some seedDatabase ∧
    seedDatabase.employees.length = 15 ∧
    seedDatabase.departments.length = 5 ∧
    seedDatabase.projects.length = 5 ∧
    seedDatabase.salaries.length = 15 ∧
    seedDatabase.projectAssignments.length = 11 := by
  refine ⟨?_, fun db => rfl, rfl, rfl, rfl, rfl, rfl, rfl⟩
  intro fileState
  cases fileState <;> rfl

/-- C6: the results text built by `generate_natural_answer` renders at most
50 rows verbatim: all of them when there are 50 or fewer, exactly the first
50 followed by a note naming the omitted count when there are more (for 75
rows, "... and 25 more rows"), and an explicit no-results marker when the row
list is empty. -/
theorem C6_row_truncation :
    ∀ {ρ : Type} (render : ρ → String) (rws : List ρ),
      (rws = [] → formatResults render rws = "No results found.") ∧
      (rws ≠ [] → rws.length ≤ 50 →
        formatResults render rws = pyJoin "\n" (rws.map render) ∧
          (rws.map render).length = rws.length) ∧
      (50 < rws.length →
        formatResults render rws =
          pyJoin "\n" ((rws.take 50).map render) ++ "\n... and "
            ++ toString (rws.length - 50) ++ " more rows" ∧
          ((rws.take 50).map render).length = 50) ∧
      (rws.length = 75 →
        formatResults render rws =
          pyJoin "\n" ((rws.take 50).map render) ++ "\n... and 25 more rows") := by
  intro ρ render rws
  refine ⟨?_, ?_, ?_, ?_⟩
  · intro h
    rw [h]
    rfl
  · intro hne hle
    have h50 : ¬ (50 < rws.length) := by omega
    constructor
    · simp [formatResults, hne, h50, List.take_of_length_le hle]
    · simp
  · intro h50
    have hne : rws ≠ [] := by
      intro h
      rw [h] at h50
      simp at h50
    constructor
    · simp [formatResults, hne, h50]
    · simp
      omega
  · intro h75
    have h50 : 50 < rws.length := by omega
    have hne : rws ≠ [] := by
      intro h
      rw [h] at h75
      simp at h75
    have hbase : formatResults render rws =
        pyJoin "\n" ((rws.take 50).map render) ++ "\n... and "
          ++ toString (rws.length - 50) ++ " more rows" := by
      simp [formatResults, hne, h50]
    rw [hbase, h75, string_append_assoc, string_append_assoc]
    congr 1

theorem C6_row_truncation_witness :
    formatResults (fun _ : Unit => "row") [] = "No results found." ∧
    (((List.replicate 75 ()).take 50).map (fun _ : Unit => "row")).length = 50 ∧
    formatResults (fun _ : Unit => "row") (List.replicate 75 ()) =
      pyJoin "\n" (((List.replicate 75 ()).take 50).map (fun _ : Unit => "row"))
        ++ "\n... and 25 more rows" :=
  ⟨(C6_row_truncation _ []).1 rfl,
   ((C6_row_truncation _ (List.replicate 75 ())).2.2.1 (by decide)).2,
   (C6_row_truncation _ (List.replicate 75 ())).2.2.2 (by decide)⟩

/-- C7: `generate_sql_query` post-processing first strips the raw model
output; output whose trimmed form is not fence-wrapped is returned merely
trimmed, while fence-wrapped output has every line whose stripped form starts
with a fence removed, the remaining lines rejoined in order, and the result
trimmed. -/
theorem C7_fence_postprocessing :
    ∀ raw : String,
      (pyStartsWith (pyStrip raw) "```" = false → stripCodeFences raw = pyStrip raw) ∧
      (pyStartsWith (pyStrip raw) "```" = true →
        stripCodeFences raw =
          pyStrip (pyJoin "\n" ((pySplitLines (pyStrip raw)).filter
            (fun line => !(pyStartsWith (pyStrip line) "```"))))) := by
  intro raw
  constructor
  · intro h
    simp [stripCodeFences, h]
  · intro h
    simp [stripCodeFences, h]

theorem C7_fence_postprocessing_witness :
    stripCodeFences "  SELECT * FROM employees;  " = pyStrip "  SELECT * FROM employees;  " ∧
    stripCodeFences "```sql\nSELECT name FROM employees;\n```" =
      pyStrip (pyJoin "\n"
        ((pySplitLines (pyStrip "```sql\nSELECT name FROM employees;\n```")).filter
          (fun line => !(pyStartsWith (pyStrip line) "```")))) :=
  ⟨(C7_fence_postprocessing "  SELECT * FROM employees;  ").1 (by decide),
   (C7_fence_postprocessing "```sql\nSELECT name FROM employees;\n```").2 (by decide)⟩

/-- C8 counterexample: with the placeholder API key, the `ValueError` raised
by `configure_gemini` at first use of the client is caught by
`ask_question`'s `except Exception` handler and stored in the record's
`error` field — it is converted into an `AnswerRecord` error, contradicting
the claim that it is surfaced without such conversion. -/
theorem C8_config_error_lands_in_record :
    (askQuestion badKeyEnv "Who earns the highest salary?").error =
      some configureGeminiErrorMessage ∧
    (askQuestion badKeyEnv "Who earns the highest salary?").answer = none :=
  ⟨rfl, rfl⟩

/-- C8 (amended): an absent, empty, or placeholder API key makes
`configure_gemini` raise the fatal configuration `ValueError` at first use of
the language-model client; when reached through `ask_question`, that error is
caught at the orchestrator boundary like any stage failure and surfaced in
the record's `error` field, with all produced fields `None`. -/
theorem C8_config_error_amended :
    ∀ (apiKey : Option String) (callModel : String → Except String String)
      {ρ : Type} (env : PipelineEnv ρ) (q : String),
      (apiKey = none ∨ apiKey = some "" ∨ apiKey = some "your_google_api_key_here") →
      env.llmSql = geminiStage apiKey callModel →
      configureGemini apiKey = .error configureGeminiErrorMessage ∧
      askQuestion env q =
        { question := q, sql_query := none, columns := none, rows := none
        , answer := none, error := some configureGeminiErrorMessage } := by
  intro apiKey callModel ρ env q hkey hllm
  have hcfg : configureGemini apiKey = .error configureGeminiErrorMessage := by
    rcases hkey with h | h | h <;> subst h <;> rfl
  refine ⟨hcfg, ?_⟩
  have hgen : generateSqlQuery env q = .error configureGeminiErrorMessage := by
    simp [generateSqlQuery, getSchemaInfo, hllm, geminiStage, hcfg]
  simp [askQuestion, hgen]

theorem C8_config_error_amended_witness :
    configureGemini (some "your_google_api_key_here") =
      .error configureGeminiErrorMessage ∧
    askQuestion badKeyEnv "q" =
      { question := "q", sql_query := none, columns := none, rows := none
      , answer := none, error := some configureGeminiErrorMessage } :=
  C8_config_error_amended (some "your_google_api_key_here")
    (fun _ => .ok "SELECT 1;") badKeyEnv "q" (Or.inr (Or.inr rfl)) rfl

/-- C9 counterexample: with no database file at the expected path,
`get_schema_info` does not propagate a fatal error — `sqlite3.connect`
creates a fresh empty database, and the call returns an empty schema
description. -/
theorem C9_missing_file_returns_empty_schema :
    getSchemaInfo none = Except.ok "" :=
  rfl

/-- C9 (amended): `get_schema_info` never fails merely because no database
file exists at the expected path: connecting creates an empty database, so
the call always returns normally, with the rendered schema of the connected
database — the empty string when the file was absent. -/
theorem C9_schema_info_never_fails :
    ∀ fileState : Option Database,
      isOkResult (getSchemaInfo fileState) = true ∧
      getSchemaInfo fileState =
        Except.ok (renderFullSchema (sqliteConnect fileState)) ∧
      renderFullSchema (sqliteConnect none) = "" := by
  intro fileState
  exact ⟨rfl, rfl, rfl⟩

/-- C10: `ask_question` always returns a record with exactly the six fields
of `AnswerRecord` (the Python dict is created with those six keys and never
altered in shape), whose `question` field is the input string verbatim —
including empty and whitespace-only inputs — and whose other five fields are
each either `None` or the value its pipeline stage produced. -/
theorem C10_record_shape :
    ∀ {ρ : Type} (env : PipelineEnv ρ) (q : String),
      (askQuestion env q).question = q ∧
      ((askQuestion env q).sql_query = none ∨
        ∃ s, generateSqlQuery env q = .ok s ∧ (askQuestion env q).sql_query = some s) ∧
      ((askQuestion env q).columns = none ∨
        ∃ s columns rws, generateSqlQuery env q = .ok s ∧
          (executeSqlQuery env.engine env.fileState s).result = .ok (columns, rws) ∧
          (askQuestion env q).columns = some columns) ∧
      ((askQuestion env q).rows = none ∨
        ∃ s columns rws, generateSqlQuery env q = .ok s ∧
          (executeSqlQuery env.engine env.fileState s).result = .ok (columns, rws) ∧
          (askQuestion env q).rows = some rws) ∧
      ((askQuestion env q).answer = none ∨
        ∃ s columns rws a, generateSqlQuery env q = .ok s ∧
          (executeSqlQuery env.engine env.fileState s).result = .ok (columns, rws) ∧
          generateNaturalAnswer env q s columns rws = .ok a ∧
          (askQuestion env q).answer = some a) ∧
      ((askQuestion env q).error = none ∨
        ∃ e, (askQuestion env q).error = some e ∧
          (generateSqlQuery env q = .error e ∨
            (∃ s err, generateSqlQuery env q = .ok s ∧
              (executeSqlQuery env.engine env.fileState s).result = .error err ∧
              e = err.message) ∨
            (∃ s columns rws, generateSqlQuery env q = .ok s ∧
              (executeSqlQuery env.engine env.fileState s).result = .ok (columns, rws) ∧
              generateNaturalAnswer env q s columns rws = .error e))) := by
  intro ρ env q
  rcases hg : generateSqlQuery env q with e | s
  · have hr : askQuestion env q =
        { question := q, sql_query := none, columns := none, rows := none
        , answer := none, error := some e } := by
      simp [askQuestion, hg]
    rw [hr]
    exact ⟨rfl, Or.inl rfl, Or.inl rfl, Or.inl rfl, Or.inl rfl,
      Or.inr ⟨e, rfl, Or.inl rfl⟩⟩
  · rcases hx : (executeSqlQuery env.engine env.fileState s).result with err | ⟨columns, rws⟩
    · have hr : askQuestion env q =
          { question := q, sql_query := some s, columns := none, rows := none
          , answer := none, error := some err.message } := by
        simp [askQuestion, hg, hx]
      rw [hr]
      exact ⟨rfl, Or.inr ⟨s, rfl, rfl⟩, Or.inl rfl, Or.inl rfl, Or.inl rfl,
        Or.inr ⟨err.message, rfl, Or.inr (Or.inl ⟨s, err, rfl, hx, rfl⟩)⟩⟩
    · rcases ha : generateNaturalAnswer env q s columns rws with e | ans
      · have hr : askQuestion env q =
            { question := q, sql_query := some s, columns := some columns
            , rows := some rws, answer := none, error := some e } := by
          simp [askQuestion, hg, hx, ha]
        rw [hr]
        exact ⟨rfl, Or.inr ⟨s, rfl, rfl⟩, Or.inr ⟨s, columns, rws, rfl, hx, rfl⟩,
          Or.inr ⟨s, columns, rws, rfl, hx, rfl⟩, Or.inl rfl,
          Or.inr ⟨e, rfl, Or.inr (Or.inr ⟨s, columns, rws, rfl, hx, ha⟩)⟩⟩
      · have hr : askQuestion env q =
            { question := q, sql_query := some s, columns := some columns
            , rows := some rws, answer := some ans, error := none } := by
          simp [askQuestion, hg, hx, ha]
        rw [hr]
        exact ⟨rfl, Or.inr ⟨s, rfl, rfl⟩, Or.inr ⟨s, columns, rws, rfl, hx, rfl⟩,
          Or.inr ⟨s, columns, rws, rfl, hx, rfl⟩,
          Or.inr ⟨s, columns, rws, ans, rfl, hx, ha, rfl⟩, Or.inl rfl⟩

end IntelliSQL
